import Mathlib

/-!
Verification of the natural-language specification of the InvokeAI excerpt
(download job queue and the sqlite workflow record store) against the code.

The download queue implementation (`DownloadQueueService`) is not part of the
excerpt; only its test suite (src/tests/app/services/download/
test_download_queue.py) is.  The queue is therefore modelled from the spec
(spec.md sections 3 to 7), with the details the spec leaves open pinned by the
behaviour the test suite asserts.  The sqlite workflow record store
(src/invokeai/app/services/workflow_records/workflow_records_sqlite.py) is in
the excerpt and is embedded directly.
-/

namespace DownloadQueue

/-- Modelled from the spec: the status vocabulary of a download job (spec
section 3); the `DownloadJobStatus` enum itself is not in the excerpt. -/
inductive DownloadJobStatus where
  | waiting
  | running
  | paused
  | completed
  | error
  | cancelled
  deriving DecidableEq, Repr

/-- Terminal states per the spec glossary: `completed`, `error`, `cancelled`. -/
def DownloadJobStatus.isTerminal : DownloadJobStatus → Bool
  | .completed => true
  | .error => true
  | .cancelled => true
  | _ => false

/-- Modelled from the spec: the Transport interface (spec section 6):
`request(url) -> (status_code, headers (content_length, content_disposition),
byte_stream)`.  The byte stream is a list of chunks, each a string of bytes;
`content_disposition` is the filename hint it carries, when present. -/
structure MockResponse where
  status_code : Nat
  reason : String
  content_length : Option Nat
  content_disposition : Option String
  chunks : List String
  deriving DecidableEq, Repr

/-- Total number of body bytes of a response body. -/
def lenSum (chunks : List String) : Nat := (chunks.map String.length).sum

/-- A response whose declared content length, when present, is the actual
length of the byte stream — the Transport contract of spec section 6 (the
header is the length *of the supplied stream*). -/
def MockResponse.honestB (r : MockResponse) : Bool :=
  match r.content_length with
  | none => true
  | some L => lenSum r.chunks == L

/-- Modelled from the spec: the Job Record (spec section 3). -/
structure DownloadJob where
  id : Nat
  source : String
  dest : String
  status : DownloadJobStatus
  total_bytes : Nat
  current_bytes : Nat
  error_type : Option String
  error : Option String
  deriving DecidableEq, Repr

/-- A freshly admitted job: status `waiting`, no progress, no error (spec
section 4.1, `enqueue`). -/
def newJob (id : Nat) (source dest : String) : DownloadJob :=
  { id := id, source := source, dest := dest, status := .waiting,
    total_bytes := 0, current_bytes := 0, error_type := none, error := none }

/-- Event kinds of the Event Bus interface (spec section 6). -/
inductive DownloadEventKind where
  | started
  | progress
  | complete
  | error
  | cancelled
  deriving DecidableEq, Repr

def DownloadEventKind.isTerminalKind : DownloadEventKind → Bool
  | .complete => true
  | .error => true
  | .cancelled => true
  | _ => false

/-- The payload of one emitted event: kind, job source, byte counters and the
error fields (spec section 6).  Timestamps are attached separately by
`stampEvents`, in emission order. -/
structure DownloadEventData where
  kind : DownloadEventKind
  source : String
  current_bytes : Nat
  total_bytes : Nat
  error_type : Option String
  error : Option String
  deriving DecidableEq, Repr

/-- An event as delivered to the Event Bus: payload plus timestamp. -/
structure DownloadEvent where
  data : DownloadEventData
  timestamp : Nat
  deriving DecidableEq, Repr

/-- Timestamps are a monotone clock on the worker: the n-th emitted event of a
job carries timestamp n. -/
def stampEvents (l : List DownloadEventData) : List DownloadEvent :=
  l.enum.map (fun p => { data := p.2, timestamp := p.1 })

/-- The five callback slots of the callback interface (spec section 6). -/
inductive CallbackSlot where
  | onStart
  | onProgress
  | onComplete
  | onError
  | onCancelled
  deriving DecidableEq, Repr

/-- Modelled from the spec: the per-job callback set (spec sections 3 and 6).
Each registered callback receives the current job snapshot; its boolean result
records whether it raises an exception when invoked (`true` = raises). -/
structure DownloadCallbacks where
  on_start : Option (DownloadJob → Bool)
  on_progress : Option (DownloadJob → Bool)
  on_complete : Option (DownloadJob → Bool)
  on_error : Option (DownloadJob → Bool)
  on_cancelled : Option (DownloadJob → Bool)

def noCallbacks : DownloadCallbacks :=
  { on_start := none, on_progress := none, on_complete := none,
    on_error := none, on_cancelled := none }

/-- A callback set in which every slot is registered and every callback raises
an exception whenever it is invoked. -/
def allBrokenCallbacks : DownloadCallbacks :=
  { on_start := some (fun _ => true), on_progress := some (fun _ => true),
    on_complete := some (fun _ => true), on_error := some (fun _ => true),
    on_cancelled := some (fun _ => true) }

/-- All five callback slots are registered. -/
def DownloadCallbacks.allRegistered (c : DownloadCallbacks) : Prop :=
  c.on_start.isSome = true ∧ c.on_progress.isSome = true ∧
  c.on_complete.isSome = true ∧ c.on_error.isSome = true ∧
  c.on_cancelled.isSome = true

/-- Modelled from the spec: safe callback invocation (spec section 4.2,
callback execution policy).  A registered callback is invoked with the job
snapshot; an exception it raises is caught and logged.  Returns the invocation
log entries (slot and snapshot status) and the list of caught exceptions; the
job state is not touched either way. -/
def invokeCallback (cb : Option (DownloadJob → Bool)) (slot : CallbackSlot)
    (j : DownloadJob) :
    List (CallbackSlot × DownloadJobStatus) × List CallbackSlot :=
  match cb with
  | none => ([], [])
  | some f => ([(slot, j.status)], if f j then [slot] else [])

/-- Whether the cooperative cancellation flag is observed set at chunk-boundary
check number `i` (spec sections 4.2 step 4 and 5): `cancelIdx = some c` means
the flag is first visible at check `c`; `none` means cancel is never
requested. -/
def cancelSeen (cancelIdx : Option Nat) (i : Nat) : Bool :=
  match cancelIdx with
  | none => false
  | some c => c ≤ i

/-- The final path segment of a source URL. -/
def lastPathSegment (src : String) : String := (src.splitOn ("/")).getLastD src

/-- Filename resolution (spec section 4.2 step 2): a content-disposition hint
wins; otherwise the source path's last segment. -/
def resolveFilename (src : String) (hint : Option String) : String :=
  match hint with
  | some name => name
  | none => lastPathSegment src

/-- The streaming loop state: file contents written so far, current byte
count, the events emitted, the callback invocation log, and the caught
callback exceptions. -/
structure StreamAcc where
  file : String
  current : Nat
  eventData : List DownloadEventData
  cbLog : List (CallbackSlot × DownloadJobStatus)
  caught : List CallbackSlot

/-- Modelled from the spec: the streaming step of the download protocol (spec
section 4.2 step 4).  Before each chunk read the cancellation flag is checked;
when it is set, streaming stops and the partial file is retained (the boolean
result is `true`).  Otherwise the chunk is written, `current_bytes` advances,
and a progress event and callback are emitted. -/
def streamChunks (cbs : DownloadCallbacks) (src : String) (total : Nat)
    (cancelIdx : Option Nat) (j : DownloadJob) :
    List String → Nat → StreamAcc → StreamAcc × Bool
  | [], _, acc => (acc, false)
  | chunk :: rest, i, acc =>
    if cancelSeen cancelIdx i then (acc, true)
    else
      let current := acc.current + chunk.length
      let snapshot := { j with status := .running, current_bytes := current,
                               total_bytes := total }
      let inv := invokeCallback cbs.on_progress .onProgress snapshot
      streamChunks cbs src total cancelIdx j rest (i + 1)
        { file := acc.file ++ chunk
          current := current
          eventData := acc.eventData ++
            [{ kind := .progress, source := src, current_bytes := current,
               total_bytes := total, error_type := none, error := none }]
          cbLog := acc.cbLog ++ inv.1
          caught := acc.caught ++ inv.2 }

/-- The error-path job record: the failed job with `error_type` set to the
exception class name plus the status reason in parentheses (test_errors
asserts `"HTTPError(NOT FOUND)"` for a 404) and `error` set to the full
traceback diagnostic (test_event_bus asserts it matches
`requests.exceptions.HTTPError: NOT FOUND`). -/
def failedJob (j : DownloadJob) (reason : String) : DownloadJob :=
  { j with
    status := .error,
    error_type := some ("HTTPError(" ++ reason ++ ")"),
    error := some ("Traceback (most recent call last): " ++
      "requests.exceptions.HTTPError: " ++ reason) }

/-- The outcome of running one job to its terminal state: the final job
record, the event payloads emitted (in order), the callback invocation log,
the caught callback exceptions, the destination file contents (`none` when the
file was never opened), and the status history of the job record. -/
structure RunResult where
  job : DownloadJob
  eventData : List DownloadEventData
  cbLog : List (CallbackSlot × DownloadJobStatus)
  caught : List CallbackSlot
  file : Option String
  history : List DownloadJobStatus

/-- Modelled from the spec: one worker executing the download protocol for a
single job (spec section 4.2), with the details the spec leaves open pinned by
the excerpt's test suite: the started event is emitted only after the
transport status check succeeds (a 404 produces exactly one event, the error
event — test_event_bus), and `error_type` is the exception class name followed
by the status reason in parentheses, `"HTTPError(NOT FOUND)"` for a 404
(test_errors), while `error` is the full traceback diagnostic ending in
`"requests.exceptions.HTTPError: "` plus the reason. -/
def runJob (cbs : DownloadCallbacks) (j : DownloadJob) (resp : MockResponse)
    (cancelIdx : Option Nat) : RunResult :=
  let jr := { j with status := DownloadJobStatus.running }
  if resp.status_code ≠ 200 then
    let jerr := failedJob jr resp.reason
    let inv := invokeCallback cbs.on_error .onError jerr
    { job := jerr
      eventData := [{ kind := .error, source := j.source,
                      current_bytes := jerr.current_bytes,
                      total_bytes := jerr.total_bytes,
                      error_type := jerr.error_type, error := jerr.error }]
      cbLog := inv.1
      caught := inv.2
      file := none
      history := [.waiting, .running, .error] }
  else
    let total := resp.content_length.getD 0
    let jstart := { jr with total_bytes := total }
    let sInv := invokeCallback cbs.on_start .onStart jstart
    let startEv : DownloadEventData :=
      { kind := .started, source := j.source, current_bytes := 0,
        total_bytes := total, error_type := none, error := none }
    let res := streamChunks cbs j.source total cancelIdx jstart resp.chunks 0
      { file := "", current := 0, eventData := [], cbLog := [], caught := [] }
    if res.2 then
      let jc := { jstart with status := .cancelled, current_bytes := res.1.current }
      let cInv := invokeCallback cbs.on_cancelled .onCancelled jc
      { job := jc
        eventData := startEv :: res.1.eventData ++
          [{ kind := .cancelled, source := j.source,
             current_bytes := res.1.current, total_bytes := total,
             error_type := none, error := none }]
        cbLog := sInv.1 ++ res.1.cbLog ++ cInv.1
        caught := sInv.2 ++ res.1.caught ++ cInv.2
        file := some res.1.file
        history := [.waiting, .running, .cancelled] }
    else
      let jdone := { jstart with status := .completed, current_bytes := res.1.current }
      let dInv := invokeCallback cbs.on_complete .onComplete jdone
      { job := jdone
        eventData := startEv :: res.1.eventData ++
          [{ kind := .complete, source := j.source,
             current_bytes := res.1.current, total_bytes := total,
             error_type := none, error := none }]
        cbLog := sInv.1 ++ res.1.cbLog ++ dInv.1
        caught := sInv.2 ++ res.1.caught ++ dInv.2
        file := some res.1.file
        history := [.waiting, .running, .completed] }

/-- The outcome of the streaming phase of `runJob`: the loop applied to the
job's body from a fresh accumulator, with the running job snapshot. -/
abbrev streamRes (cbs : DownloadCallbacks) (j : DownloadJob)
    (resp : MockResponse) (ci : Option Nat) : StreamAcc × Bool :=
  streamChunks cbs j.source (resp.content_length.getD 0) ci
    { j with status := .running, total_bytes := resp.content_length.getD 0 }
    resp.chunks 0
    { file := "", current := 0, eventData := [], cbLog := [], caught := [] }

/-- Modelled from the spec: `cancel_job` on a job still `waiting` removes it
from the work queue and transitions it directly to `cancelled` (spec section
4.1). -/
def cancelWaitingJob (cbs : DownloadCallbacks) (j : DownloadJob) : RunResult :=
  let jc := { j with status := DownloadJobStatus.cancelled }
  let cInv := invokeCallback cbs.on_cancelled .onCancelled jc
  { job := jc
    eventData := [{ kind := .cancelled, source := j.source,
                    current_bytes := j.current_bytes,
                    total_bytes := j.total_bytes,
                    error_type := none, error := none }]
    cbLog := cInv.1
    caught := cInv.2
    file := none
    history := [.waiting, .cancelled] }

/-- The stamped event stream of one run. -/
def runEvents (cbs : DownloadCallbacks) (j : DownloadJob) (resp : MockResponse)
    (cancelIdx : Option Nat) : List DownloadEvent :=
  stampEvents (runJob cbs j resp cancelIdx).eventData

/-- The per-job execution parameters a queue entry carries: its callback set,
the transport response its source produces, and the cancellation schedule. -/
structure JobSpec where
  cbs : DownloadCallbacks
  resp : MockResponse
  cancelIdx : Option Nat

/-- Modelled from the spec: one pass of the worker pool over the job table —
every non-terminal job is run to its terminal state by a worker; terminal jobs
are left untouched (spec sections 4.2 and 5: failure is scoped to the job, the
queue continues processing other jobs). -/
def runPending (jobs : List (DownloadJob × JobSpec)) : List (DownloadJob × JobSpec) :=
  jobs.map (fun p =>
    if p.1.status.isTerminal then p
    else ((runJob p.2.cbs p.1 p.2.resp p.2.cancelIdx).job, p.2))

/-- Modelled from the spec: `join()` (spec section 4.1) — a barrier over the
live job set at each check, not a snapshot at call time.  Concurrent admission
is modelled by batches of jobs that arrive between checks: each pass drains
every currently known non-terminal job, then admits the batch that arrived
during the pass, and `join` returns only after a pass with no new arrivals. -/
def joinLoop :
    List (DownloadJob × JobSpec) → List (List (DownloadJob × JobSpec)) →
    List (DownloadJob × JobSpec)
  | jobs, [] => runPending jobs
  | jobs, batch :: rest => joinLoop (runPending jobs ++ batch) rest

/-- Event-kind projection of an event list. -/
def eventKinds (l : List DownloadEvent) : List DownloadEventKind :=
  l.map (fun e => e.data.kind)

/-- The tail of the event pattern claimed for every job: zero or more progress
events followed by exactly one terminal event. -/
def progressThenTerminal : List DownloadEventKind → Bool
  | [] => false
  | k :: rest =>
    if k = DownloadEventKind.progress then progressThenTerminal rest
    else k.isTerminalKind && rest.isEmpty

/-- The event pattern claimed for every single job: one started event, then
zero or more progress events, then exactly one terminal event. -/
def matchesClaimedPattern (ks : List DownloadEventKind) : Bool :=
  match ks with
  | .started :: rest => progressThenTerminal rest
  | _ => false

/-- The tail of the amended pattern for a job that passes the transport
status check: zero or more progress events, then exactly one of `complete` or
`cancelled` (never `error`). -/
def progressThenSuccessEnd : List DownloadEventKind → Bool
  | [] => false
  | k :: rest =>
    if k = DownloadEventKind.progress then progressThenSuccessEnd rest
    else (k = DownloadEventKind.complete || k = DownloadEventKind.cancelled) &&
      rest.isEmpty

/-- The amended pattern for a job that passes the transport status check: one
started event, then zero or more progress events, then exactly one of
`complete` or `cancelled`. -/
def matchesPassingPattern (ks : List DownloadEventKind) : Bool :=
  match ks with
  | .started :: rest => progressThenSuccessEnd rest
  | _ => false

/-- A placeholder event payload used as the default of `List.getLastD`. -/
def dummyEventData : DownloadEventData :=
  { kind := .started, source := "", current_bytes := 0,
    total_bytes := 0, error_type := none, error := none }

/-- A placeholder event used as the default of `List.getLastD`. -/
def dummyEvent : DownloadEvent :=
  { data := dummyEventData, timestamp := 0 }

/-- The full response body: the concatenation of all chunks. -/
def joinChunks : List String → String
  | [] => ""
  | c :: rest => c ++ joinChunks rest

/-- Test fixture: the job enqueued by the excerpt's tests. -/
def jobFixture : DownloadJob :=
  newJob 0 ("http://www.civitai.com/models/12345") ("/tmp/downloads")

/-- Test fixture: the mounted source `http://www.civitai.com/models/broken`
(test_download_queue.py), which answers 404. -/
def resp404broken : MockResponse :=
  { status_code := 404, reason := "NOT FOUND", content_length := none,
    content_disposition := none, chunks := [] }

/-- Test fixture: the mounted source `http://www.civitai.com/models/missing`
(test_download_queue.py): a 200 response carrying a body but no
content-length header. -/
def respMissingLength : MockResponse :=
  { status_code := 200, reason := "OK", content_length := none,
    content_disposition := some ("missing.txt"),
    chunks := ["Missing content length"] }

/-- A well-formed 200 response with an accurate content length. -/
def respSmallOk : MockResponse :=
  { status_code := 200, reason := "OK", content_length := some 5,
    content_disposition := some ("mock12345.safetensors"),
    chunks := ["hello"] }

/-- A 200 response with a single one-byte chunk (so exactly one cancellation
check happens, at chunk index 0). -/
def respOneChunk : MockResponse :=
  { status_code := 200, reason := "OK", content_length := some 1,
    content_disposition := none, chunks := ["a"] }

/-- A 200 response whose declared content length disagrees with its body — a
transport that violates its own interface contract. -/
def respDishonest : MockResponse :=
  { status_code := 200, reason := "OK", content_length := some 1,
    content_disposition := none, chunks := ["ab"] }

end DownloadQueue

namespace WorkflowRecords

/-- The workflow categories used by the store (`WorkflowCategory` in
workflow_records_common): `User = "user"`, `Default = "default"`. -/
inductive WorkflowCategory where
  | user
  | default
  deriving DecidableEq, Repr

/-- The `value` of a category, i.e. the string stored in the `category`
column. -/
def WorkflowCategory.value : WorkflowCategory → String
  | .user => "user"
  | .default => "default"

/-- The sort columns accepted by `get_many` (`WorkflowRecordOrderBy`). -/
inductive WorkflowRecordOrderBy where
  | name
  | created_at
  | updated_at
  | opened_at
  deriving DecidableEq, Repr

/-- `SQLiteDirection`: ASC or DESC. -/
inductive SQLiteDirection where
  | asc
  | desc
  deriving DecidableEq, Repr

/-- A workflow body before an id is assigned (`WorkflowWithoutID`): its
metadata carries the category; name and description are fields of the workflow
document; `body` stands for the rest of the serialized document. -/
structure WorkflowWithoutID where
  category : WorkflowCategory
  name : String
  description : String
  body : String
  deriving DecidableEq, Repr

/-- One row of the `workflow_library` table: the workflow id, the workflow
document (whose category, name and description columns are derived from it),
and the timestamp columns (ISO strings, so lexicographic order is time
order). -/
structure WorkflowRow where
  workflow_id : String
  workflow : WorkflowWithoutID
  created_at : String
  updated_at : String
  opened_at : String
  deriving DecidableEq, Repr

/-- The sqlite connection: the committed table contents plus the rows inserted
by the open transaction and not yet committed.  `commit` makes the pending
rows durable, `rollback` discards them. -/
structure SqliteConn where
  committed : List WorkflowRow
  pending : List WorkflowRow
  deriving DecidableEq, Repr

/-- The table contents as seen from inside the open transaction. -/
def SqliteConn.view (c : SqliteConn) : List WorkflowRow :=
  c.committed ++ c.pending

def SqliteConn.commit (c : SqliteConn) : SqliteConn :=
  { committed := c.view, pending := [] }

def SqliteConn.rollback (c : SqliteConn) : SqliteConn :=
  { committed := c.committed, pending := [] }

/-- `INSERT OR IGNORE INTO workflow_library (workflow_id, workflow)`: a row
whose primary key already exists in the transaction's view is silently
skipped. -/
def insertOrIgnore (c : SqliteConn) (row : WorkflowRow) : SqliteConn :=
  if c.view.any (fun r => r.workflow_id == row.workflow_id) then c
  else { c with pending := c.pending ++ [row] }

/-- Embedding of `SqliteWorkflowRecordsStorage.get`: update the `opened_at`
column of the row (a no-op when the id is absent), commit, then select the
row; raises `WorkflowNotFoundError` when there is no such row.  `now` stands
for `STRFTIME(..., 'NOW')`. -/
def get (conn : SqliteConn) (workflow_id : String) (now : String) :
    SqliteConn × Except String WorkflowRow :=
  let touched := conn.view.map (fun r =>
    if r.workflow_id == workflow_id then { r with opened_at := now } else r)
  let c2 : SqliteConn := { committed := touched, pending := [] }
  match c2.committed.find? (fun r => r.workflow_id == workflow_id) with
  | some row => (c2, Except.ok row)
  | none =>
      (c2, Except.error ("WorkflowNotFoundError: Workflow with id " ++
        workflow_id ++ " not found"))

/-- Embedding of `SqliteWorkflowRecordsStorage.create`.  Inside the `try`
block the method asserts `workflow.meta.category is WorkflowCategory.User`,
builds a `Workflow` with a fresh uuid (`freshId` stands for `uuid_string()`),
executes `INSERT OR IGNORE` and commits; any exception rolls the connection
back and is re-raised (the assert failure is an `AssertionError`).  On success
it returns `self.get(id)`, outside the `try`. -/
def create (conn : SqliteConn) (workflow : WorkflowWithoutID)
    (freshId : String) (now : String) : SqliteConn × Except String WorkflowRow :=
  if workflow.category = WorkflowCategory.user then
    let row : WorkflowRow :=
      { workflow_id := freshId, workflow := workflow,
        created_at := now, updated_at := now, opened_at := now }
    let c2 := (insertOrIgnore conn row).commit
    get c2 freshId now
  else
    (conn.rollback, Except.error ("AssertionError"))

/-- Boolean prefix test on character lists. -/
def prefixB : List Char → List Char → Bool
  | [], _ => true
  | _ :: _, [] => false
  | a :: t, b :: u => a == b && prefixB t u

/-- Boolean infix (substring) test on character lists. -/
def infixB (needle : List Char) : List Char → Bool
  | [] => needle.isEmpty
  | a :: t => prefixB needle (a :: t) || infixB needle t

/-- SQLite `col LIKE '%' || q || '%'`: substring match, case-insensitive on
ASCII letters. -/
def likeMatch (col q : String) : Bool :=
  infixB (q.data.map Char.toLower) (col.data.map Char.toLower)

/-- Python's `str.strip()`: drop leading and trailing whitespace. -/
def pyStrip (s : String) : String :=
  ⟨((s.data.dropWhile Char.isWhitespace).reverse.dropWhile
    Char.isWhitespace).reverse⟩

/-- The `stripped_query` computation of `get_many`:
`query.strip() if query else None`, then discarded when falsy (absent or
empty after stripping). -/
def stripQuery (query : Option String) : Option String :=
  match query with
  | none => none
  | some q =>
    if q = "" then none
    else
      let s := pyStrip q
      if s = "" then none else some s

/-- The WHERE clause of `get_many`.  Without a search query it is
`category = ?`.  With one, the source appends
`" AND name LIKE ? OR description LIKE ? "`, producing
`category = ? AND name LIKE ? OR description LIKE ?`, which SQLite parses —
AND binding tighter than OR — as
`(category = ? AND name LIKE ?) OR (description LIKE ?)`. -/
def whereClause (category : WorkflowCategory) (strippedQuery : Option String)
    (r : WorkflowRow) : Bool :=
  match strippedQuery with
  | none => r.workflow.category == category
  | some q =>
      (r.workflow.category == category && likeMatch r.workflow.name q) ||
      likeMatch r.workflow.description q

/-- The column an `ORDER BY {order_by.value}` sorts on. -/
def orderKey (order_by : WorkflowRecordOrderBy) (r : WorkflowRow) : String :=
  match order_by with
  | .name => r.workflow.name
  | .created_at => r.created_at
  | .updated_at => r.updated_at
  | .opened_at => r.opened_at

/-- The comparator of `ORDER BY {order_by.value} {direction.value}`. -/
def orderLE (order_by : WorkflowRecordOrderBy) (direction : SQLiteDirection)
    (a b : WorkflowRow) : Bool :=
  match direction with
  | .asc => orderKey order_by a ≤ orderKey order_by b
  | .desc => orderKey order_by b ≤ orderKey order_by a

/-- `PaginatedResults[WorkflowRecordListItemDTO]`. -/
structure PaginatedResults where
  items : List WorkflowRow
  page : Nat
  per_page : Nat
  pages : Nat
  total : Nat
  deriving DecidableEq, Repr

/-- Embedding of `SqliteWorkflowRecordsStorage.get_many` over the committed
rows of the store.  The main query filters by `whereClause`, sorts by
`ORDER BY {order_by.value} {direction.value}` and, when `per_page` is truthy
(Python: a non-`None`, non-zero int), applies `LIMIT per_page OFFSET
page * per_page`; the count query applies the same WHERE clause without limit;
`pages = total // per_page + (total % per_page > 0)` with pagination, else
1. -/
def get_many (rows : List WorkflowRow) (order_by : WorkflowRecordOrderBy)
    (direction : SQLiteDirection) (category : WorkflowCategory) (page : Nat)
    (per_page : Option Nat) (query : Option String) : PaginatedResults :=
  let sq := stripQuery query
  let filtered := rows.filter (whereClause category sq)
  let sorted := filtered.mergeSort (orderLE order_by direction)
  let pp := match per_page with
    | none => none
    | some n => if n = 0 then none else some n
  let items := match pp with
    | some n => (sorted.drop (page * n)).take n
    | none => sorted
  let total := (rows.filter (whereClause category sq)).length
  let pages := match pp with
    | some n => total / n + (if total % n > 0 then 1 else 0)
    | none => 1
  { items := items, page := page,
    per_page := match pp with | some n => n | none => total,
    pages := pages, total := total }

/-- The returned-set predicate exactly as the claim words it:
`(category = requested AND name LIKE %query%) OR (description LIKE %query%)`. -/
def claimPredicate (category : WorkflowCategory) (q : String)
    (r : WorkflowRow) : Prop :=
  (r.workflow.category = category ∧ likeMatch r.workflow.name q = true) ∨
  likeMatch r.workflow.description q = true

/-- Fixture: a workflow whose category is not `User`. -/
def wfDefaultFixture : WorkflowWithoutID :=
  { category := .default, name := "Text to Image", description := "a default workflow",
    body := "{}" }

/-- Fixture: a `Default`-category row whose description contains "foo". -/
def rowFooFixture : WorkflowRow :=
  { workflow_id := "default_1",
    workflow := { category := .default, name := "Upscale",
                  description := "contains FOO here", body := "{}" },
    created_at := "2024-01-01", updated_at := "2024-01-01",
    opened_at := "2024-01-01" }

end WorkflowRecords

/-! ## Helper lemmas for the download queue model -/

namespace DownloadQueue

theorem lenSum_nil : lenSum [] = 0 := rfl

theorem lenSum_cons (c : String) (rest : List String) :
    lenSum (c :: rest) = c.length + lenSum rest := by
  simp [lenSum]

theorem joinChunks_length (l : List String) :
    (joinChunks l).length = lenSum l := by
  induction l with
  | nil => rfl
  | cons c rest ih => simp [joinChunks, lenSum_cons, ih]

theorem getLastD_append_singleton {α : Type} (l : List α) (a d : α) :
    (l ++ [a]).getLastD d = a := by
  induction l with
  | nil => rfl
  | cons x xs ih =>
    cases xs with
    | nil => rfl
    | cons y ys => simpa using ih


/-- Every event the streaming loop appends is a progress event whose
`total_bytes` is the declared total and whose `current_bytes` is bounded by
the bytes already written plus the remaining body. -/
theorem streamChunks_events_mem (cbs : DownloadCallbacks) (src : String)
    (total : Nat) (ci : Option Nat) (j : DownloadJob) :
    ∀ (chunks : List String) (i : Nat) (acc : StreamAcc),
      ∀ e ∈ (streamChunks cbs src total ci j chunks i acc).1.eventData,
        e ∈ acc.eventData ∨
        (e.kind = .progress ∧ e.total_bytes = total ∧
         e.current_bytes ≤ acc.current + lenSum chunks) := by
  intro chunks
  induction chunks with
  | nil =>
    intro i acc e he
    exact Or.inl he
  | cons c rest ih =>
    intro i acc e he
    rw [streamChunks] at he
    by_cases hc : cancelSeen ci i
    · rw [if_pos hc] at he
      exact Or.inl he
    · rw [if_neg hc] at he
      rcases ih (i + 1) _ e he with hmem | hnew
      · rcases List.mem_append.mp hmem with hold | hthis
        · exact Or.inl hold
        · right
          rcases List.mem_singleton.mp hthis with rfl
          refine ⟨rfl, rfl, ?_⟩
          show acc.current + c.length ≤ acc.current + lenSum (c :: rest)
          simp only [lenSum_cons]
          omega
      · right
        refine ⟨hnew.1, hnew.2.1, ?_⟩
        have h3 : e.current_bytes ≤ (acc.current + c.length) + lenSum rest :=
          hnew.2.2
        simp only [lenSum_cons]
        omega

/-- Every callback invocation the streaming loop logs is an `on_progress`
invocation observing status `running`. -/
theorem streamChunks_cbLog_mem (cbs : DownloadCallbacks) (src : String)
    (total : Nat) (ci : Option Nat) (j : DownloadJob) :
    ∀ (chunks : List String) (i : Nat) (acc : StreamAcc),
      ∀ p ∈ (streamChunks cbs src total ci j chunks i acc).1.cbLog,
        p ∈ acc.cbLog ∨ (p.1 = CallbackSlot.onProgress ∧ p.2 = .running) := by
  intro chunks
  induction chunks with
  | nil =>
    intro i acc p hp
    exact Or.inl hp
  | cons c rest ih =>
    intro i acc p hp
    rw [streamChunks] at hp
    by_cases hc : cancelSeen ci i
    · rw [if_pos hc] at hp
      exact Or.inl hp
    · rw [if_neg hc] at hp
      rcases ih (i + 1) _ p hp with hmem | hnew
      · rcases List.mem_append.mp hmem with hold | hthis
        · exact Or.inl hold
        · right
          cases hcb : cbs.on_progress with
          | none => simp [invokeCallback, hcb] at hthis
          | some f =>
            simp only [invokeCallback, hcb] at hthis
            rcases List.mem_singleton.mp hthis with rfl
            exact ⟨rfl, rfl⟩
      · exact Or.inr hnew

/-- When the loop runs to exhaustion without observing the cancellation flag,
the whole body has been written and counted. -/
theorem streamChunks_not_cancelled (cbs : DownloadCallbacks) (src : String)
    (total : Nat) (ci : Option Nat) (j : DownloadJob) :
    ∀ (chunks : List String) (i : Nat) (acc : StreamAcc),
      (streamChunks cbs src total ci j chunks i acc).2 = false →
      (streamChunks cbs src total ci j chunks i acc).1.file =
        acc.file ++ joinChunks chunks ∧
      (streamChunks cbs src total ci j chunks i acc).1.current =
        acc.current + lenSum chunks := by
  intro chunks
  induction chunks with
  | nil =>
    intro i acc _
    constructor
    · show acc.file = acc.file ++ joinChunks []
      simp [joinChunks]
    · show acc.current = acc.current + lenSum []
      simp [lenSum]
  | cons c rest ih =>
    intro i acc hnc
    rw [streamChunks] at hnc ⊢
    by_cases hc : cancelSeen ci i
    · rw [if_pos hc] at hnc
      simp at hnc
    · rw [if_neg hc] at hnc ⊢
      dsimp only at hnc ⊢
      obtain ⟨hf, hcur⟩ := ih (i + 1) _ hnc
      constructor
      · rw [hf]
        show (acc.file ++ c) ++ joinChunks rest = acc.file ++ joinChunks (c :: rest)
        simp [joinChunks, String.append_assoc]
      · rw [hcur]
        show (acc.current + c.length) + lenSum rest = acc.current + lenSum (c :: rest)
        simp only [lenSum_cons]
        omega

/-- Cancel never requested: the loop never reports cancellation. -/
theorem streamChunks_no_cancel (cbs : DownloadCallbacks) (src : String)
    (total : Nat) (j : DownloadJob) :
    ∀ (chunks : List String) (i : Nat) (acc : StreamAcc),
      (streamChunks cbs src total none j chunks i acc).2 = false := by
  intro chunks
  induction chunks with
  | nil => intro i acc; rfl
  | cons c rest ih =>
    intro i acc
    rw [streamChunks]
    simp only [cancelSeen, if_false]
    exact ih (i + 1) _

/-- The cancellation flag set before some remaining chunk boundary is always
observed: the loop reports cancellation. -/
theorem streamChunks_cancelled (cbs : DownloadCallbacks) (src : String)
    (total : Nat) (j : DownloadJob) (c : Nat) :
    ∀ (chunks : List String) (i : Nat) (acc : StreamAcc),
      chunks.length ≠ 0 →
      c < i + chunks.length →
      (streamChunks cbs src total (some c) j chunks i acc).2 = true := by
  intro chunks
  induction chunks with
  | nil =>
    intro i acc hne _
    exact absurd rfl hne
  | cons hd rest ih =>
    intro i acc _ h
    rw [streamChunks]
    by_cases hc : cancelSeen (some c) i
    · rw [if_pos hc]
    · rw [if_neg hc]
      simp only [cancelSeen, decide_eq_true_eq] at hc
      have hrest : rest.length ≠ 0 := by
        simp at h
        omega
      apply ih (i + 1) _ hrest
      simp at h ⊢
      omega

/-- The stream outcome — file contents, byte count, emitted events, and
whether cancellation was observed — does not depend on the callback set or on
the job snapshot handed to the callbacks. -/
theorem streamChunks_indep (cbs cbs' : DownloadCallbacks) (src : String)
    (total : Nat) (ci : Option Nat) (j j' : DownloadJob) :
    ∀ (chunks : List String) (i : Nat) (acc acc' : StreamAcc),
      acc.file = acc'.file → acc.current = acc'.current →
      acc.eventData = acc'.eventData →
      (streamChunks cbs src total ci j chunks i acc).1.file =
        (streamChunks cbs' src total ci j' chunks i acc').1.file ∧
      (streamChunks cbs src total ci j chunks i acc).1.current =
        (streamChunks cbs' src total ci j' chunks i acc').1.current ∧
      (streamChunks cbs src total ci j chunks i acc).1.eventData =
        (streamChunks cbs' src total ci j' chunks i acc').1.eventData ∧
      (streamChunks cbs src total ci j chunks i acc).2 =
        (streamChunks cbs' src total ci j' chunks i acc').2 := by
  intro chunks
  induction chunks with
  | nil =>
    intro i acc acc' hf hc he
    exact ⟨hf, hc, he, rfl⟩
  | cons c rest ih =>
    intro i acc acc' hf hc he
    rw [streamChunks, streamChunks]
    by_cases hcs : cancelSeen ci i
    · rw [if_pos hcs, if_pos hcs]
      exact ⟨hf, hc, he, rfl⟩
    · rw [if_neg hcs, if_neg hcs]
      dsimp only
      exact ih (i + 1) _ _ (by dsimp only; rw [hf]) (by dsimp only; rw [hc])
        (by dsimp only; rw [hc, he])



/-- Unfolding of `runJob` on a transport failure (non-200 status). -/
theorem runJob_fail (cbs : DownloadCallbacks) (j : DownloadJob)
    (resp : MockResponse) (ci : Option Nat) (h : resp.status_code ≠ 200) :
    runJob cbs j resp ci =
      { job := failedJob j resp.reason,
        eventData := [{ kind := .error,
                        source := j.source,
                        current_bytes := j.current_bytes,
                        total_bytes := j.total_bytes,
                        error_type := some ("HTTPError(" ++ resp.reason ++ ")"),
                        error := some ("Traceback (most recent call last): " ++
                          "requests.exceptions.HTTPError: " ++ resp.reason) }],
        cbLog := (invokeCallback cbs.on_error .onError (failedJob j resp.reason)).1,
        caught := (invokeCallback cbs.on_error .onError (failedJob j resp.reason)).2,
        file := none,
        history := [.waiting, .running, .error] } := by
  rw [runJob]
  dsimp only
  rw [if_pos h]
  rfl


/-- Unfolding of `runJob` when the transport succeeds and the cancellation
flag is observed during streaming. -/
theorem runJob_cancel (cbs : DownloadCallbacks) (j : DownloadJob)
    (resp : MockResponse) (ci : Option Nat) (h : resp.status_code = 200)
    (hcan : (streamRes cbs j resp ci).2 = true) :
    runJob cbs j resp ci =
      { job := { j with
          status := .cancelled,
          total_bytes := resp.content_length.getD 0,
          current_bytes := (streamRes cbs j resp ci).1.current },
        eventData := { kind := .started,
                       source := j.source,
                       current_bytes := 0,
                       total_bytes := resp.content_length.getD 0,
                       error_type := none,
                       error := none } ::
          (streamRes cbs j resp ci).1.eventData ++
          [{ kind := .cancelled,
             source := j.source,
             current_bytes := (streamRes cbs j resp ci).1.current,
             total_bytes := resp.content_length.getD 0,
             error_type := none,
             error := none }],
        cbLog := (invokeCallback cbs.on_start .onStart
            { j with status := .running,
                     total_bytes := resp.content_length.getD 0 }).1 ++
          (streamRes cbs j resp ci).1.cbLog ++
          (invokeCallback cbs.on_cancelled .onCancelled
            { j with
              status := .cancelled,
              total_bytes := resp.content_length.getD 0,
              current_bytes := (streamRes cbs j resp ci).1.current }).1,
        caught := (invokeCallback cbs.on_start .onStart
            { j with status := .running,
                     total_bytes := resp.content_length.getD 0 }).2 ++
          (streamRes cbs j resp ci).1.caught ++
          (invokeCallback cbs.on_cancelled .onCancelled
            { j with
              status := .cancelled,
              total_bytes := resp.content_length.getD 0,
              current_bytes := (streamRes cbs j resp ci).1.current }).2,
        file := some (streamRes cbs j resp ci).1.file,
        history := [.waiting, .running, .cancelled] } := by
  rw [runJob]
  dsimp only
  rw [if_neg (fun hne => hne h), if_pos hcan]

/-- Unfolding of `runJob` when the transport succeeds and the whole body is
streamed without cancellation. -/
theorem runJob_complete (cbs : DownloadCallbacks) (j : DownloadJob)
    (resp : MockResponse) (ci : Option Nat) (h : resp.status_code = 200)
    (hnc : (streamRes cbs j resp ci).2 = false) :
    runJob cbs j resp ci =
      { job := { j with
          status := .completed,
          total_bytes := resp.content_length.getD 0,
          current_bytes := (streamRes cbs j resp ci).1.current },
        eventData := { kind := .started,
                       source := j.source,
                       current_bytes := 0,
                       total_bytes := resp.content_length.getD 0,
                       error_type := none,
                       error := none } ::
          (streamRes cbs j resp ci).1.eventData ++
          [{ kind := .complete,
             source := j.source,
             current_bytes := (streamRes cbs j resp ci).1.current,
             total_bytes := resp.content_length.getD 0,
             error_type := none,
             error := none }],
        cbLog := (invokeCallback cbs.on_start .onStart
            { j with status := .running,
                     total_bytes := resp.content_length.getD 0 }).1 ++
          (streamRes cbs j resp ci).1.cbLog ++
          (invokeCallback cbs.on_complete .onComplete
            { j with
              status := .completed,
              total_bytes := resp.content_length.getD 0,
              current_bytes := (streamRes cbs j resp ci).1.current }).1,
        caught := (invokeCallback cbs.on_start .onStart
            { j with status := .running,
                     total_bytes := resp.content_length.getD 0 }).2 ++
          (streamRes cbs j resp ci).1.caught ++
          (invokeCallback cbs.on_complete .onComplete
            { j with
              status := .completed,
              total_bytes := resp.content_length.getD 0,
              current_bytes := (streamRes cbs j resp ci).1.current }).2,
        file := some (streamRes cbs j resp ci).1.file,
        history := [.waiting, .running, .completed] } := by
  rw [runJob]
  dsimp only
  rw [if_neg (fun hne => hne h), if_neg (by rw [hnc]; exact Bool.false_ne_true)]

/-- The streaming loop, started from an empty accumulator, logs no callback
invocation that observes a terminal status (all its invocations are
`on_progress` at status `running`). -/
theorem streamRes_cbLog_terminal_count (cbs : DownloadCallbacks)
    (j : DownloadJob) (resp : MockResponse) (ci : Option Nat) :
    ((streamRes cbs j resp ci).1.cbLog.map Prod.snd).countP
      (fun s => s.isTerminal) = 0 := by
  apply List.countP_eq_zero.mpr
  intro s hs
  rcases List.mem_map.mp hs with ⟨p, hp, rfl⟩
  rcases streamChunks_cbLog_mem cbs j.source (resp.content_length.getD 0) ci
      { j with status := .running, total_bytes := resp.content_length.getD 0 }
      resp.chunks 0
      { file := "", current := 0, eventData := [], cbLog := [], caught := [] }
      p hp with hmem | hnew
  · simp at hmem
  · rw [hnew.2]
    simp [DownloadJobStatus.isTerminal]

/-- C1: for every download job, the status history enters a terminal state
exactly once, ends there, the callback-observed statuses contain the terminal
status exactly once (when all callback slots are registered), and a job
cancelled while still waiting likewise enters a terminal state exactly
once. -/
theorem c1_terminal_state_exactly_once (cbs : DownloadCallbacks)
    (j : DownloadJob) (resp : MockResponse) (ci : Option Nat)
    (hall : cbs.allRegistered) :
    ((runJob cbs j resp ci).history.countP (fun s => s.isTerminal)) = 1 ∧
    (((runJob cbs j resp ci).history.getLastD .waiting).isTerminal) = true ∧
    (((runJob cbs j resp ci).cbLog.map Prod.snd).countP
      (fun s => s.isTerminal)) = 1 ∧
    ((cancelWaitingJob cbs j).history.countP (fun s => s.isTerminal)) = 1 := by
  obtain ⟨h1, h2, h3, h4, h5⟩ := hall
  obtain ⟨f1, hf1⟩ := Option.isSome_iff_exists.mp h1
  obtain ⟨f3, hf3⟩ := Option.isSome_iff_exists.mp h3
  obtain ⟨f4, hf4⟩ := Option.isSome_iff_exists.mp h4
  obtain ⟨f5, hf5⟩ := Option.isSome_iff_exists.mp h5
  have hwait : ((cancelWaitingJob cbs j).history.countP
      (fun s => s.isTerminal)) = 1 := rfl
  by_cases h200 : resp.status_code = 200
  · by_cases hcan : (streamRes cbs j resp ci).2 = true
    · rw [runJob_cancel cbs j resp ci h200 hcan]
      refine ⟨rfl, rfl, ?_, hwait⟩
      simp only [List.map_append, List.countP_append,
        streamRes_cbLog_terminal_count]
      simp [invokeCallback, hf1, hf5, DownloadJobStatus.isTerminal]
    · rw [runJob_complete cbs j resp ci h200
        (Bool.not_eq_true _ ▸ (eq_false_of_ne_true hcan))]
      refine ⟨rfl, rfl, ?_, hwait⟩
      simp only [List.map_append, List.countP_append,
        streamRes_cbLog_terminal_count]
      simp [invokeCallback, hf1, hf3, DownloadJobStatus.isTerminal]
  · rw [runJob_fail cbs j resp ci h200]
    refine ⟨rfl, rfl, ?_, hwait⟩
    simp [invokeCallback, hf4, failedJob, DownloadJobStatus.isTerminal]

/-- Witness for C1 at a concrete registered callback set and a concrete
response. -/
theorem c1_terminal_state_exactly_once_witness :
    ((runJob allBrokenCallbacks jobFixture respSmallOk none).history.countP
      (fun s => s.isTerminal)) = 1 ∧
    (((runJob allBrokenCallbacks jobFixture respSmallOk none).cbLog.map
      Prod.snd).countP (fun s => s.isTerminal)) = 1 :=
  ⟨(c1_terminal_state_exactly_once allBrokenCallbacks jobFixture respSmallOk
      none ⟨rfl, rfl, rfl, rfl, rfl⟩).1,
   (c1_terminal_state_exactly_once allBrokenCallbacks jobFixture respSmallOk
      none ⟨rfl, rfl, rfl, rfl, rfl⟩).2.2.1⟩

/-- C2: a 200 response with no content-length header and an empty body
reaches `completed` with `total_bytes = 0`; the missing header alone never
causes a failure. -/
theorem c2_missing_content_length_completes (cbs : DownloadCallbacks)
    (j : DownloadJob) (resp : MockResponse) (ci : Option Nat)
    (h200 : resp.status_code = 200) (hlen : resp.content_length = none)
    (hbody : resp.chunks = []) :
    (runJob cbs j resp ci).job.status = .completed ∧
    (runJob cbs j resp ci).job.total_bytes = 0 := by
  have hnc : (streamRes cbs j resp ci).2 = false := by
    show (streamChunks cbs j.source (resp.content_length.getD 0) ci
      { j with status := .running, total_bytes := resp.content_length.getD 0 }
      resp.chunks 0
      { file := "", current := 0, eventData := [], cbLog := [],
        caught := [] }).2 = false
    rw [hbody]
    rfl
  rw [runJob_complete cbs j resp ci h200 hnc]
  exact ⟨rfl, by simp [hlen]⟩

/-- Witness for C2: the excerpt's `missing` fixture with an empty body. -/
theorem c2_missing_content_length_completes_witness :
    (runJob noCallbacks jobFixture
      { status_code := 200, reason := "OK", content_length := none,
        content_disposition := some ("missing.txt"), chunks := [] }
      none).job.status = .completed ∧
    (runJob noCallbacks jobFixture
      { status_code := 200, reason := "OK", content_length := none,
        content_disposition := some ("missing.txt"), chunks := [] }
      none).job.total_bytes = 0 :=
  c2_missing_content_length_completes noCallbacks jobFixture
    { status_code := 200, reason := "OK", content_length := none,
      content_disposition := some ("missing.txt"), chunks := [] }
    none rfl rfl rfl


/-- C3: a 404 response drives the job to `error`; `error_type` is the
exception class name plus the status reason, `error` contains the underlying
reason inside the full diagnostic, and the failing job is isolated: a worker
pass over a queue containing it processes every other job exactly as it would
alone. -/
theorem c3_http_error_classified (cbs : DownloadCallbacks) (j : DownloadJob)
    (resp : MockResponse) (ci : Option Nat) (spec : JobSpec)
    (pre post : List (DownloadJob × JobSpec))
    (h404 : resp.status_code = 404) :
    (runJob cbs j resp ci).job.status = .error ∧
    (runJob cbs j resp ci).job.error_type =
      some ("HTTPError(" ++ resp.reason ++ ")") ∧
    ("requests.exceptions.HTTPError: " ++ resp.reason).data <:+:
      ((runJob cbs j resp ci).job.error.getD ("")).data ∧
    runPending (pre ++ (j, spec) :: post) =
      runPending pre ++ runPending [(j, spec)] ++ runPending post := by
  have hne : resp.status_code ≠ 200 := by omega
  rw [runJob_fail cbs j resp ci hne]
  refine ⟨rfl, rfl, ?_, ?_⟩
  · show ("requests.exceptions.HTTPError: " ++ resp.reason).data <:+:
      ((failedJob j resp.reason).error.getD ("")).data
    show ("requests.exceptions.HTTPError: " ++ resp.reason).data <:+:
      ((some ("Traceback (most recent call last): " ++
        "requests.exceptions.HTTPError: " ++ resp.reason)).getD ("")).data
    simp only [Option.getD_some, String.data_append, List.append_assoc]
    exact (List.suffix_append _ _).isInfix
  · simp [runPending]

/-- Witness for C3: the excerpt's `broken` 404 fixture inside a two-job
queue. -/
theorem c3_http_error_classified_witness :
    (runJob noCallbacks jobFixture resp404broken none).job.status = .error ∧
    (runJob noCallbacks jobFixture resp404broken none).job.error_type =
      some ("HTTPError(" ++ resp404broken.reason ++ ")") ∧
    ("requests.exceptions.HTTPError: " ++ resp404broken.reason).data <:+:
      ((runJob noCallbacks jobFixture resp404broken none).job.error.getD
        "").data ∧
    runPending ([] ++ (jobFixture,
        { cbs := noCallbacks, resp := resp404broken, cancelIdx := none }) ::
        [(newJob 1 ("http://www.civitai.com/models/9999") ("/tmp/downloads"),
          { cbs := noCallbacks, resp := respSmallOk, cancelIdx := none })]) =
      runPending [] ++
      runPending [(jobFixture,
        { cbs := noCallbacks, resp := resp404broken, cancelIdx := none })] ++
      runPending [(newJob 1 ("http://www.civitai.com/models/9999")
          "/tmp/downloads",
        { cbs := noCallbacks, resp := respSmallOk, cancelIdx := none })] :=
  c3_http_error_classified noCallbacks jobFixture resp404broken none
    { cbs := noCallbacks, resp := resp404broken, cancelIdx := none }
    []
    [(newJob 1 ("http://www.civitai.com/models/9999") ("/tmp/downloads"),
      { cbs := noCallbacks, resp := respSmallOk, cancelIdx := none })]
    rfl

/-- C5: the job outcome — final record, emitted events, file contents, status
history — is identical under any two callback sets, so an exception raised by
a callback is caught and cannot alter the job; and a successful, uncancelled
download completes with its whole body written regardless of the callback
set. -/
theorem c5_broken_callbacks_harmless (cbs cbs2 : DownloadCallbacks)
    (j : DownloadJob) (resp : MockResponse) (ci : Option Nat) :
    ((runJob cbs j resp ci).job = (runJob cbs2 j resp ci).job ∧
     (runJob cbs j resp ci).eventData = (runJob cbs2 j resp ci).eventData ∧
     (runJob cbs j resp ci).file = (runJob cbs2 j resp ci).file ∧
     (runJob cbs j resp ci).history = (runJob cbs2 j resp ci).history) ∧
    (resp.status_code = 200 → ci = none →
      (runJob cbs j resp ci).job.status = .completed ∧
      (runJob cbs j resp ci).file = some (joinChunks resp.chunks) ∧
      (runJob cbs j resp ci).job.current_bytes = lenSum resp.chunks) := by
  obtain ⟨hf, hc, he, hb⟩ := streamChunks_indep cbs cbs2 j.source
    (resp.content_length.getD 0) ci
    { j with status := .running, total_bytes := resp.content_length.getD 0 }
    { j with status := .running, total_bytes := resp.content_length.getD 0 }
    resp.chunks 0
    { file := "", current := 0, eventData := [], cbLog := [], caught := [] }
    { file := "", current := 0, eventData := [], cbLog := [], caught := [] }
    rfl rfl rfl
  by_cases h200 : resp.status_code = 200
  · by_cases hcan : (streamRes cbs j resp ci).2 = true
    · rw [runJob_cancel cbs j resp ci h200 hcan,
        runJob_cancel cbs2 j resp ci h200 (hb ▸ hcan)]
      refine ⟨⟨?_, ?_, ?_, rfl⟩, ?_⟩
      · show ({ j with
            status := .cancelled,
            total_bytes := resp.content_length.getD 0,
            current_bytes := (streamRes cbs j resp ci).1.current } :
          DownloadJob) = _
        rw [show (streamRes cbs j resp ci).1.current =
          (streamRes cbs2 j resp ci).1.current from hc]
      · rw [show (streamRes cbs j resp ci).1.current =
          (streamRes cbs2 j resp ci).1.current from hc,
          show (streamRes cbs j resp ci).1.eventData =
          (streamRes cbs2 j resp ci).1.eventData from he]
      · rw [show (streamRes cbs j resp ci).1.file =
          (streamRes cbs2 j resp ci).1.file from hf]
      · intro _ hci
        subst hci
        have hno : (streamRes cbs j resp none).2 = false :=
          streamChunks_no_cancel cbs j.source (resp.content_length.getD 0)
            { j with status := .running,
                     total_bytes := resp.content_length.getD 0 }
            resp.chunks 0
            { file := "", current := 0, eventData := [], cbLog := [],
              caught := [] }
        rw [hno] at hcan
        exact absurd hcan Bool.false_ne_true
    · have hnc := eq_false_of_ne_true hcan
      rw [runJob_complete cbs j resp ci h200 hnc,
        runJob_complete cbs2 j resp ci h200 (hb ▸ hnc)]
      obtain ⟨hfile, hcur⟩ := streamChunks_not_cancelled cbs j.source
        (resp.content_length.getD 0) ci
        { j with status := .running, total_bytes := resp.content_length.getD 0 }
        resp.chunks 0
        { file := "", current := 0, eventData := [], cbLog := [], caught := [] }
        hnc
      refine ⟨⟨?_, ?_, ?_, rfl⟩, ?_⟩
      · show ({ j with
            status := .completed,
            total_bytes := resp.content_length.getD 0,
            current_bytes := (streamRes cbs j resp ci).1.current } :
          DownloadJob) = _
        rw [show (streamRes cbs j resp ci).1.current =
          (streamRes cbs2 j resp ci).1.current from hc]
      · rw [show (streamRes cbs j resp ci).1.current =
          (streamRes cbs2 j resp ci).1.current from hc,
          show (streamRes cbs j resp ci).1.eventData =
          (streamRes cbs2 j resp ci).1.eventData from he]
      · rw [show (streamRes cbs j resp ci).1.file =
          (streamRes cbs2 j resp ci).1.file from hf]
      · intro _ _
        refine ⟨rfl, ?_, ?_⟩
        · show some (streamRes cbs j resp ci).1.file =
            some (joinChunks resp.chunks)
          rw [show (streamRes cbs j resp ci).1.file =
            "" ++ joinChunks resp.chunks from hfile]
          rw [String.empty_append]
        · show (streamRes cbs j resp ci).1.current = lenSum resp.chunks
          rw [show (streamRes cbs j resp ci).1.current =
            0 + lenSum resp.chunks from hcur]
          omega
  · rw [runJob_fail cbs j resp ci h200, runJob_fail cbs2 j resp ci h200]
    exact ⟨⟨rfl, rfl, rfl, rfl⟩, fun h _ => absurd h h200⟩

/-- Witness for C5: every callback registered and raising, on a successful
small download — same final job as with no callbacks, still completed, file
fully written. -/
theorem c5_broken_callbacks_harmless_witness :
    (runJob allBrokenCallbacks jobFixture respSmallOk none).job =
      (runJob noCallbacks jobFixture respSmallOk none).job ∧
    (runJob allBrokenCallbacks jobFixture respSmallOk none).job.status =
      .completed ∧
    (runJob allBrokenCallbacks jobFixture respSmallOk none).file =
      some (joinChunks respSmallOk.chunks) :=
  ⟨(c5_broken_callbacks_harmless allBrokenCallbacks noCallbacks jobFixture
      respSmallOk none).1.1,
   ((c5_broken_callbacks_harmless allBrokenCallbacks noCallbacks jobFixture
      respSmallOk none).2 rfl rfl).1,
   ((c5_broken_callbacks_harmless allBrokenCallbacks noCallbacks jobFixture
      respSmallOk none).2 rfl rfl).2.1⟩


/-- Every worker execution ends in a terminal status. -/
theorem runJob_terminal (cbs : DownloadCallbacks) (j : DownloadJob)
    (resp : MockResponse) (ci : Option Nat) :
    ((runJob cbs j resp ci).job.status).isTerminal = true := by
  by_cases h200 : resp.status_code = 200
  · by_cases hcan : (streamRes cbs j resp ci).2 = true
    · rw [runJob_cancel cbs j resp ci h200 hcan]
      rfl
    · rw [runJob_complete cbs j resp ci h200 (eq_false_of_ne_true hcan)]
      rfl
  · rw [runJob_fail cbs j resp ci h200]
    rfl

/-- One pass of the worker pool leaves every job in the table terminal. -/
theorem runPending_all_terminal (l : List (DownloadJob × JobSpec)) :
    (runPending l).all (fun p => p.1.status.isTerminal) = true := by
  rw [List.all_eq_true]
  intro p hp
  rw [runPending] at hp
  rcases List.mem_map.mp hp with ⟨q, _, rfl⟩
  by_cases ht : q.1.status.isTerminal = true
  · simp [ht]
  · simp only [Bool.not_eq_true] at ht
    simp [ht, runJob_terminal]

/-- C7: `join` returns only when every job known to the controller — the jobs
present at the call plus every batch admitted while the join was in flight —
is terminal, and no job is dropped. -/
theorem c7_join_barrier (jobs : List (DownloadJob × JobSpec))
    (arrivals : List (List (DownloadJob × JobSpec))) :
    (joinLoop jobs arrivals).all (fun p => p.1.status.isTerminal) = true ∧
    (joinLoop jobs arrivals).length =
      jobs.length + (arrivals.map List.length).sum := by
  induction arrivals generalizing jobs with
  | nil =>
    refine ⟨runPending_all_terminal jobs, ?_⟩
    show (runPending jobs).length = jobs.length + ([].map List.length).sum
    simp only [runPending, List.length_map, List.map_nil, List.sum_nil]
    omega
  | cons batch rest ih =>
    refine ⟨(ih (runPending jobs ++ batch)).1, ?_⟩
    show (joinLoop (runPending jobs ++ batch) rest).length =
      jobs.length + ((batch :: rest).map List.length).sum
    rw [(ih (runPending jobs ++ batch)).2]
    simp only [runPending, List.length_append, List.length_map,
      List.map_cons, List.sum_cons]
    omega

/-- C8: a job completed with a known positive total has
`current_bytes = total_bytes` and its file holds exactly the whole body —
`total_bytes` many bytes — provided the transport honours its own interface
(its declared content length is the length of the stream it supplies). -/
theorem c8_completed_full_size (cbs : DownloadCallbacks) (j : DownloadJob)
    (resp : MockResponse) (ci : Option Nat)
    (hhon : resp.honestB = true)
    (hdone : (runJob cbs j resp ci).job.status = .completed)
    (hpos : 0 < (runJob cbs j resp ci).job.total_bytes) :
    (runJob cbs j resp ci).job.current_bytes =
      (runJob cbs j resp ci).job.total_bytes ∧
    (runJob cbs j resp ci).file = some (joinChunks resp.chunks) ∧
    (joinChunks resp.chunks).length =
      (runJob cbs j resp ci).job.total_bytes := by
  by_cases h200 : resp.status_code = 200
  · by_cases hcan : (streamRes cbs j resp ci).2 = true
    · rw [runJob_cancel cbs j resp ci h200 hcan] at hdone
      simp at hdone
    · have hnc := eq_false_of_ne_true hcan
      obtain ⟨hfile, hcur⟩ := streamChunks_not_cancelled cbs j.source
        (resp.content_length.getD 0) ci
        { j with status := .running, total_bytes := resp.content_length.getD 0 }
        resp.chunks 0
        { file := "", current := 0, eventData := [], cbLog := [], caught := [] }
        hnc
      have hfile2 : (streamRes cbs j resp ci).1.file =
          "" ++ joinChunks resp.chunks := hfile
      have hcur2 : (streamRes cbs j resp ci).1.current =
          0 + lenSum resp.chunks := hcur
      rw [runJob_complete cbs j resp ci h200 hnc] at hpos ⊢
      have hpos2 : 0 < resp.content_length.getD 0 := hpos
      obtain ⟨L, hL⟩ : ∃ L, resp.content_length = some L := by
        cases hOpt : resp.content_length with
        | none =>
          rw [hOpt] at hpos2
          simp at hpos2
        | some L => exact ⟨L, rfl⟩
      have hlen : lenSum resp.chunks = L := by
        simp only [MockResponse.honestB, hL] at hhon
        exact beq_iff_eq.mp hhon
      refine ⟨?_, ?_, ?_⟩
      · show (streamRes cbs j resp ci).1.current =
          resp.content_length.getD 0
        rw [hcur2, Nat.zero_add, hlen, hL, Option.getD_some]
      · show some (streamRes cbs j resp ci).1.file =
          some (joinChunks resp.chunks)
        rw [hfile2, String.empty_append]
      · show (joinChunks resp.chunks).length = resp.content_length.getD 0
        rw [joinChunks_length, hlen, hL, Option.getD_some]
  · rw [runJob_fail cbs j resp ci h200] at hdone
    simp [failedJob] at hdone

/-- Witness for C8: a 200 response of declared and actual length five. -/
theorem c8_completed_full_size_witness :
    (runJob noCallbacks jobFixture respSmallOk none).job.current_bytes =
      (runJob noCallbacks jobFixture respSmallOk none).job.total_bytes ∧
    (runJob noCallbacks jobFixture respSmallOk none).file =
      some (joinChunks respSmallOk.chunks) ∧
    (joinChunks respSmallOk.chunks).length =
      (runJob noCallbacks jobFixture respSmallOk none).job.total_bytes :=
  c8_completed_full_size noCallbacks jobFixture respSmallOk none rfl rfl
    (by decide)


/-- An unregistered or differently-slotted callback contributes no entry
counted for a slot. -/
theorem invokeCallback_count_ne (cb : Option (DownloadJob → Bool))
    (slot slot2 : CallbackSlot) (j : DownloadJob) (h : slot ≠ slot2) :
    ((invokeCallback cb slot j).1.countP (fun p => p.1 == slot2)) = 0 := by
  cases cb with
  | none => rfl
  | some f => simp [invokeCallback, h]

/-- A registered callback contributes exactly one entry for its own slot. -/
theorem invokeCallback_count_eq (f : DownloadJob → Bool) (slot : CallbackSlot)
    (j : DownloadJob) :
    ((invokeCallback (some f) slot j).1.countP (fun p => p.1 == slot)) = 1 := by
  simp [invokeCallback]

/-- The streaming loop logs only `on_progress` invocations, so it contributes
no entry counted for any other slot. -/
theorem streamRes_cbLog_count_ne_progress (cbs : DownloadCallbacks)
    (j : DownloadJob) (resp : MockResponse) (ci : Option Nat)
    (slot2 : CallbackSlot) (h : slot2 ≠ CallbackSlot.onProgress) :
    ((streamRes cbs j resp ci).1.cbLog.countP (fun p => p.1 == slot2)) = 0 := by
  apply List.countP_eq_zero.mpr
  intro p hp
  rcases streamChunks_cbLog_mem cbs j.source (resp.content_length.getD 0) ci
      { j with status := .running, total_bytes := resp.content_length.getD 0 }
      resp.chunks 0
      { file := "", current := 0, eventData := [], cbLog := [], caught := [] }
      p hp with hmem | hnew
  · simp at hmem
  · rw [hnew.1]
    simp [Ne.symm h]

/-- Counterexample to C4 as stated: a job whose cancellation is requested
while it is not yet terminal need not end `cancelled` — a 404 job ends in
`error` even though the flag was set before the first check, and a job whose
flag becomes visible only after its last chunk-boundary check (here: set
after check 0 of a one-chunk body) ends `completed`. -/
theorem c4_counterexample :
    (runJob noCallbacks jobFixture resp404broken (some 0)).job.status =
      .error ∧
    (runJob noCallbacks jobFixture respOneChunk (some 1)).job.status =
      .completed :=
  ⟨rfl, rfl⟩

/-- C4 (amended): when the transport succeeds and the cancellation flag is
observed at a chunk boundary before the stream is exhausted, the job ends
`cancelled`, `on_cancelled` is invoked exactly once, and the last emitted
event is a cancellation event carrying the original source; a job cancelled
while still `waiting` satisfies the same three properties.  (Cancellation is
advisory: a job that fails transport or drains its stream before observing
the flag ends `error` or `completed` instead — see the counterexample.) -/
theorem c4_cancel_amended (cbs : DownloadCallbacks) (j : DownloadJob)
    (resp : MockResponse) (c : Nat)
    (hreg : cbs.on_cancelled.isSome = true)
    (h200 : resp.status_code = 200)
    (hc : c < resp.chunks.length) :
    (runJob cbs j resp (some c)).job.status = .cancelled ∧
    ((runJob cbs j resp (some c)).cbLog.countP
      (fun p => p.1 == CallbackSlot.onCancelled)) = 1 ∧
    ((runJob cbs j resp (some c)).eventData.getLastD dummyEventData).kind =
      .cancelled ∧
    ((runJob cbs j resp (some c)).eventData.getLastD dummyEventData).source =
      j.source ∧
    (cancelWaitingJob cbs j).job.status = .cancelled ∧
    ((cancelWaitingJob cbs j).cbLog.countP
      (fun p => p.1 == CallbackSlot.onCancelled)) = 1 ∧
    ((cancelWaitingJob cbs j).eventData.getLastD dummyEventData).kind =
      .cancelled ∧
    ((cancelWaitingJob cbs j).eventData.getLastD dummyEventData).source =
      j.source := by
  obtain ⟨f5, hf5⟩ := Option.isSome_iff_exists.mp hreg
  have hcan : (streamRes cbs j resp (some c)).2 = true := by
    apply streamChunks_cancelled
    · intro hlen
      rw [hlen] at hc
      exact Nat.not_lt_zero c hc
    · simpa using hc
  rw [runJob_cancel cbs j resp (some c) h200 hcan]
  have hwaitcount : ((cancelWaitingJob cbs j).cbLog.countP
      (fun p => p.1 == CallbackSlot.onCancelled)) = 1 := by
    show ((invokeCallback cbs.on_cancelled .onCancelled
      { j with status := .cancelled }).1.countP
      (fun p => p.1 == CallbackSlot.onCancelled)) = 1
    rw [hf5]
    exact invokeCallback_count_eq f5 .onCancelled _
  refine ⟨rfl, ?_, ?_, ?_, rfl, hwaitcount, rfl, rfl⟩
  · show (((invokeCallback cbs.on_start .onStart
        { j with status := .running,
                 total_bytes := resp.content_length.getD 0 }).1 ++
      (streamRes cbs j resp (some c)).1.cbLog ++
      (invokeCallback cbs.on_cancelled .onCancelled
        { j with
          status := .cancelled,
          total_bytes := resp.content_length.getD 0,
          current_bytes :=
            (streamRes cbs j resp (some c)).1.current }).1).countP
      (fun p => p.1 == CallbackSlot.onCancelled)) = 1
    rw [List.countP_append, List.countP_append]
    rw [invokeCallback_count_ne cbs.on_start .onStart .onCancelled _
      (by simp)]
    rw [streamRes_cbLog_count_ne_progress cbs j resp (some c) .onCancelled
      (by simp)]
    rw [hf5, invokeCallback_count_eq f5 .onCancelled _]
  · show ((({ kind := .started,
              source := j.source,
              current_bytes := 0,
              total_bytes := resp.content_length.getD 0,
              error_type := none,
              error := none } : DownloadEventData) ::
      (streamRes cbs j resp (some c)).1.eventData ++
      [({ kind := .cancelled,
          source := j.source,
          current_bytes := (streamRes cbs j resp (some c)).1.current,
          total_bytes := resp.content_length.getD 0,
          error_type := none,
          error := none } : DownloadEventData)]).getLastD
      dummyEventData).kind = .cancelled
    rw [getLastD_append_singleton]
  · show ((({ kind := .started,
              source := j.source,
              current_bytes := 0,
              total_bytes := resp.content_length.getD 0,
              error_type := none,
              error := none } : DownloadEventData) ::
      (streamRes cbs j resp (some c)).1.eventData ++
      [({ kind := .cancelled,
          source := j.source,
          current_bytes := (streamRes cbs j resp (some c)).1.current,
          total_bytes := resp.content_length.getD 0,
          error_type := none,
          error := none } : DownloadEventData)]).getLastD
      dummyEventData).source = j.source
    rw [getLastD_append_singleton]

/-- Witness for the amended C4: cancel requested before the first chunk of a
successful one-chunk download, with `on_cancelled` registered. -/
theorem c4_cancel_amended_witness :
    (runJob allBrokenCallbacks jobFixture respSmallOk (some 0)).job.status =
      .cancelled ∧
    ((runJob allBrokenCallbacks jobFixture respSmallOk (some 0)).cbLog.countP
      (fun p => p.1 == CallbackSlot.onCancelled)) = 1 ∧
    ((runJob allBrokenCallbacks jobFixture respSmallOk
      (some 0)).eventData.getLastD dummyEventData).kind = .cancelled ∧
    ((runJob allBrokenCallbacks jobFixture respSmallOk
      (some 0)).eventData.getLastD dummyEventData).source =
      jobFixture.source :=
  ⟨(c4_cancel_amended allBrokenCallbacks jobFixture respSmallOk 0 rfl rfl
      (by decide)).1,
   (c4_cancel_amended allBrokenCallbacks jobFixture respSmallOk 0 rfl rfl
      (by decide)).2.1,
   (c4_cancel_amended allBrokenCallbacks jobFixture respSmallOk 0 rfl rfl
      (by decide)).2.2.1,
   (c4_cancel_amended allBrokenCallbacks jobFixture respSmallOk 0 rfl rfl
      (by decide)).2.2.2.1⟩


/-- Discarding timestamps recovers the emitted payload list. -/
theorem stampEvents_map_data (l : List DownloadEventData) :
    (stampEvents l).map (fun e => e.data) = l := by
  rw [stampEvents, List.map_map]
  exact List.enum_map_snd l

/-- The timestamps of a stamped event list are `0, 1, 2, ...`. -/
theorem stampEvents_map_timestamp (l : List DownloadEventData) :
    (stampEvents l).map (fun e => e.timestamp) = List.range l.length := by
  rw [stampEvents, List.map_map]
  exact List.enum_map_fst l

theorem mem_stampEvents_data {e : DownloadEvent} {l : List DownloadEventData}
    (h : e ∈ stampEvents l) : e.data ∈ l := by
  rw [← stampEvents_map_data l]
  exact List.mem_map_of_mem (fun e => e.data) h

theorem eventKinds_stampEvents (l : List DownloadEventData) :
    eventKinds (stampEvents l) = l.map (fun d => d.kind) := by
  rw [eventKinds, stampEvents, List.map_map]
  conv_rhs => rw [← List.enum_map_snd l, List.map_map]
  rfl

/-- A job's event timestamps are non-decreasing. -/
theorem runEvents_timestamps_mono (cbs : DownloadCallbacks) (j : DownloadJob)
    (resp : MockResponse) (ci : Option Nat) :
    List.Pairwise (fun a b => a ≤ b)
      ((runEvents cbs j resp ci).map (fun e => e.timestamp)) := by
  rw [runEvents, stampEvents_map_timestamp]
  exact (List.pairwise_lt_range _).imp Nat.le_of_lt

theorem progressThenTerminal_append (ks : List DownloadEventKind)
    (t : DownloadEventKind) (hall : ∀ k ∈ ks, k = .progress)
    (ht : t.isTerminalKind = true) :
    progressThenTerminal (ks ++ [t]) = true := by
  induction ks with
  | nil =>
    by_cases htp : t = DownloadEventKind.progress
    · subst htp
      simp [DownloadEventKind.isTerminalKind] at ht
    · show progressThenTerminal [t] = true
      rw [progressThenTerminal]
      simp [htp, ht]
  | cons k rest ih =>
    have hk := hall k (List.mem_cons_self k rest)
    show progressThenTerminal (k :: (rest ++ [t])) = true
    rw [progressThenTerminal]
    simp only [hk, if_true, if_pos]
    exact ih (fun x hx => hall x (List.mem_cons_of_mem k hx))

theorem progressThenSuccessEnd_append (ks : List DownloadEventKind)
    (t : DownloadEventKind) (hall : ∀ k ∈ ks, k = .progress)
    (ht : t = DownloadEventKind.complete ∨ t = DownloadEventKind.cancelled) :
    progressThenSuccessEnd (ks ++ [t]) = true := by
  induction ks with
  | nil =>
    rcases ht with rfl | rfl <;> rfl
  | cons k rest ih =>
    have hk := hall k (List.mem_cons_self k rest)
    show progressThenSuccessEnd (k :: (rest ++ [t])) = true
    rw [progressThenSuccessEnd]
    simp only [hk, if_true, if_pos]
    exact ih (fun x hx => hall x (List.mem_cons_of_mem k hx))

theorem matchesPassing_start (rest : List DownloadEventKind) :
    matchesPassingPattern (DownloadEventKind.started :: rest) =
      progressThenSuccessEnd rest := rfl

/-- Every event the loop emits is a progress event; any member of the loop's
event list whose declared total is positive respects the byte bound, given an
honest transport. -/
theorem streamRes_event_bound (cbs : DownloadCallbacks) (j : DownloadJob)
    (resp : MockResponse) (ci : Option Nat) (hhon : resp.honestB = true)
    (d : DownloadEventData)
    (hd : d ∈ (streamRes cbs j resp ci).1.eventData)
    (hpos : 0 < d.total_bytes) :
    d.current_bytes ≤ d.total_bytes := by
  rcases streamChunks_events_mem cbs j.source (resp.content_length.getD 0) ci
      { j with status := .running, total_bytes := resp.content_length.getD 0 }
      resp.chunks 0
      { file := "", current := 0, eventData := [], cbLog := [], caught := [] }
      d hd with hmem | hnew
  · simp at hmem
  · obtain ⟨_, htot, hcur⟩ := hnew
    have hc2 : d.current_bytes ≤ 0 + lenSum resp.chunks := hcur
    rw [htot] at hpos ⊢
    obtain ⟨L, hL⟩ : ∃ L, resp.content_length = some L := by
      cases hOpt : resp.content_length with
      | none =>
        rw [hOpt] at hpos
        simp at hpos
      | some L => exact ⟨L, rfl⟩
    have hlen : lenSum resp.chunks = L := by
      simp only [MockResponse.honestB, hL] at hhon
      exact beq_iff_eq.mp hhon
    rw [hL, Option.getD_some]
    omega

/-- The kinds of the loop's emitted events are all `progress`. -/
theorem streamRes_kinds_progress (cbs : DownloadCallbacks) (j : DownloadJob)
    (resp : MockResponse) (ci : Option Nat) :
    ∀ k ∈ ((streamRes cbs j resp ci).1.eventData.map (fun d => d.kind)),
      k = DownloadEventKind.progress := by
  intro k hk
  rcases List.mem_map.mp hk with ⟨d, hd, rfl⟩
  rcases streamChunks_events_mem cbs j.source (resp.content_length.getD 0) ci
      { j with status := .running, total_bytes := resp.content_length.getD 0 }
      resp.chunks 0
      { file := "", current := 0, eventData := [], cbLog := [], caught := [] }
      d hd with hmem | hnew
  · simp at hmem
  · exact hnew.1

/-- Counterexample to C6 as stated: a 404 job emits exactly one event, the
error event, so its kind sequence has no started event and fails the claimed
pattern; and a job whose total is unknown (no content-length header, body of
22 bytes) emits a progress event with `current_bytes = 22 > 0 = total_bytes`;
a transport lying about its length (declares 1, sends 2) likewise produces a
progress event with `current_bytes > total_bytes`. -/
theorem c6_counterexample :
    matchesClaimedPattern
      (eventKinds (runEvents noCallbacks jobFixture resp404broken none)) =
      false ∧
    ((runEvents noCallbacks jobFixture respMissingLength none).getD 1
      dummyEvent).data.kind = .progress ∧
    ((runEvents noCallbacks jobFixture respMissingLength none).getD 1
      dummyEvent).data.total_bytes <
    ((runEvents noCallbacks jobFixture respMissingLength none).getD 1
      dummyEvent).data.current_bytes ∧
    ((runEvents noCallbacks jobFixture respDishonest none).getD 1
      dummyEvent).data.kind = .progress ∧
    ((runEvents noCallbacks jobFixture respDishonest none).getD 1
      dummyEvent).data.total_bytes <
    ((runEvents noCallbacks jobFixture respDishonest none).getD 1
      dummyEvent).data.current_bytes :=
  ⟨rfl, rfl, by decide, rfl, by decide⟩

/-- C6 (amended): a job that passes the transport status check emits one
started event, then zero or more progress events, then exactly one of
{complete, cancelled}; a job that fails the status check emits exactly one
event, the error event, with no preceding started event; timestamps across a
job's events are non-decreasing; and — for a transport whose declared content
length is the length of the stream it supplies — every progress event with a
known positive total satisfies `current_bytes ≤ total_bytes`. -/
theorem c6_event_order_amended (cbs : DownloadCallbacks) (j : DownloadJob)
    (resp : MockResponse) (ci : Option Nat) :
    (resp.status_code = 200 →
      matchesPassingPattern (eventKinds (runEvents cbs j resp ci)) = true) ∧
    (resp.status_code ≠ 200 →
      eventKinds (runEvents cbs j resp ci) = [DownloadEventKind.error]) ∧
    List.Pairwise (fun a b => a ≤ b)
      ((runEvents cbs j resp ci).map (fun e => e.timestamp)) ∧
    (resp.honestB = true →
      ∀ e ∈ runEvents cbs j resp ci, e.data.kind = .progress →
        0 < e.data.total_bytes → e.data.current_bytes ≤ e.data.total_bytes) := by
  refine ⟨?_, ?_, runEvents_timestamps_mono cbs j resp ci, ?_⟩
  · intro h200
    rw [runEvents, eventKinds_stampEvents]
    by_cases hcan : (streamRes cbs j resp ci).2 = true
    · rw [runJob_cancel cbs j resp ci h200 hcan]
      simp only [List.map_append, List.map_cons, List.map_nil]
      rw [List.cons_append, matchesPassing_start]
      exact progressThenSuccessEnd_append _ _
        (streamRes_kinds_progress cbs j resp ci) (Or.inr rfl)
    · rw [runJob_complete cbs j resp ci h200 (eq_false_of_ne_true hcan)]
      simp only [List.map_append, List.map_cons, List.map_nil]
      rw [List.cons_append, matchesPassing_start]
      exact progressThenSuccessEnd_append _ _
        (streamRes_kinds_progress cbs j resp ci) (Or.inl rfl)
  · intro hne
    rw [runEvents, eventKinds_stampEvents, runJob_fail cbs j resp ci hne]
    rfl
  · intro hhon e he hk hpos
    have hd : e.data ∈ (runJob cbs j resp ci).eventData := mem_stampEvents_data he
    by_cases h200 : resp.status_code = 200
    · by_cases hcan : (streamRes cbs j resp ci).2 = true
      · rw [runJob_cancel cbs j resp ci h200 hcan] at hd
        rcases List.mem_append.mp hd with hd1 | hd2
        · rcases List.mem_cons.mp hd1 with heq | hd3
          · rw [heq] at hk
            simp at hk
          · exact streamRes_event_bound cbs j resp ci hhon e.data hd3 hpos
        · rcases List.mem_singleton.mp hd2 with heq
          rw [heq] at hk
          simp at hk
      · rw [runJob_complete cbs j resp ci h200 (eq_false_of_ne_true hcan)] at hd
        rcases List.mem_append.mp hd with hd1 | hd2
        · rcases List.mem_cons.mp hd1 with heq | hd3
          · rw [heq] at hk
            simp at hk
          · exact streamRes_event_bound cbs j resp ci hhon e.data hd3 hpos
        · rcases List.mem_singleton.mp hd2 with heq
          rw [heq] at hk
          simp at hk
    · rw [runJob_fail cbs j resp ci h200] at hd
      rcases List.mem_singleton.mp hd with heq
      rw [heq] at hk
      simp at hk

/-- Witness for the amended C6: a passing run matches the passing pattern, a
404 run emits exactly the error event, and a concrete progress event of the
passing run satisfies the byte bound under the honest-length hypothesis. -/
theorem c6_event_order_amended_witness :
    matchesPassingPattern
      (eventKinds (runEvents noCallbacks jobFixture respSmallOk none)) =
      true ∧
    eventKinds (runEvents noCallbacks jobFixture resp404broken none) =
      [DownloadEventKind.error] ∧
    ((runEvents noCallbacks jobFixture respSmallOk none).getD 1
      dummyEvent).data.current_bytes ≤
    ((runEvents noCallbacks jobFixture respSmallOk none).getD 1
      dummyEvent).data.total_bytes :=
  ⟨(c6_event_order_amended noCallbacks jobFixture respSmallOk none).1 rfl,
   (c6_event_order_amended noCallbacks jobFixture resp404broken none).2.1
     (by decide),
   (c6_event_order_amended noCallbacks jobFixture respSmallOk none).2.2.2 rfl
     ((runEvents noCallbacks jobFixture respSmallOk none).getD 1 dummyEvent)
     (by decide) (by decide) (by decide)⟩

end DownloadQueue

namespace WorkflowRecords

/-- C9: `create` called with a workflow whose `meta.category` is not `User`
raises (`assert` fails with `AssertionError`), rolls the transaction back,
and leaves the committed `workflow_library` unchanged — no row is
inserted. -/
theorem c9_create_non_user_rejected (conn : SqliteConn)
    (workflow : WorkflowWithoutID) (freshId now : String)
    (h : workflow.category ≠ WorkflowCategory.user) :
    create conn workflow freshId now =
      ({ committed := conn.committed, pending := [] },
        Except.error ("AssertionError")) := by
  rw [create, if_neg h]
  rfl

/-- Witness for C9: creating a `Default`-category workflow against a
one-row store fails and leaves the store untouched. -/
theorem c9_create_non_user_rejected_witness :
    create { committed := [rowFooFixture], pending := [] } wfDefaultFixture
      ("id-1") ("2024-06-01") =
      ({ committed := [rowFooFixture], pending := [] },
        Except.error ("AssertionError")) :=
  c9_create_non_user_rejected
    { committed := [rowFooFixture], pending := [] } wfDefaultFixture
    ("id-1") ("2024-06-01") (by decide)

/-- C10: with a non-empty search query and no pagination, the set returned by
`get_many` is exactly the rows satisfying
`(category = requested AND name LIKE %query%) OR (description LIKE %query%)`:
since SQL's AND binds tighter than OR, a row whose description matches the
query is returned regardless of its category. -/
theorem c10_get_many_search_precedence (rows : List WorkflowRow)
    (order_by : WorkflowRecordOrderBy) (direction : SQLiteDirection)
    (category : WorkflowCategory) (page : Nat) (query : Option String)
    (q : String) (r : WorkflowRow)
    (hq : stripQuery query = some q) :
    (r ∈ (get_many rows order_by direction category page none query).items ↔
      r ∈ rows ∧ claimPredicate category q r) ∧
    (likeMatch r.workflow.description q = true → r ∈ rows →
      r ∈ (get_many rows order_by direction category page none query).items) := by
  have hcond : ∀ x : WorkflowRow,
      (whereClause category (some q) x = true) ↔ claimPredicate category q x := by
    intro x
    show (((x.workflow.category == category && likeMatch x.workflow.name q) ||
      likeMatch x.workflow.description q) = true) ↔ claimPredicate category q x
    rw [claimPredicate]
    simp [Bool.or_eq_true, Bool.and_eq_true, beq_iff_eq]
  have hmem : r ∈ (get_many rows order_by direction category page none
      query).items ↔ r ∈ rows ∧ claimPredicate category q r := by
    show r ∈ ((rows.filter (whereClause category (stripQuery query))).mergeSort
      (orderLE order_by direction)) ↔ _
    rw [hq, List.mem_mergeSort, List.mem_filter, hcond r]
  exact ⟨hmem, fun hlike hr => hmem.mpr ⟨hr, Or.inr hlike⟩⟩

/-- Witness for C10: a `Default`-category row whose description contains the
query (case-insensitively) is returned by a `User`-category search. -/
theorem c10_get_many_search_precedence_witness :
    rowFooFixture ∈ (get_many [rowFooFixture] .name .asc .user 0 none
      (some ("foo"))).items ∧
    rowFooFixture.workflow.category ≠ WorkflowCategory.user :=
  ⟨(c10_get_many_search_precedence [rowFooFixture] .name .asc .user 0
      (some ("foo")) "foo" rowFooFixture (by decide)).2 (by decide)
      (List.mem_singleton_self rowFooFixture),
   by decide⟩

end WorkflowRecords
